import Mathlib

/-!
Shallow embedding of the Strapi Azure-storage upload provider
(`src/index.ts` and the unnamed sibling module of the same repository).

The repository carries two variants of the module:

* `src/src/index.ts` ("v1" below): exposes `upload`, `uploadStream`,
  `delete`, `getSignedUrl` and `isPrivate`; its `Config` type has no
  `containerAccessType` field, its `init` does not copy such a field, and
  `handleUpload` always writes the plain (unsigned) blob URL.
* `src/unnamed/part_001` ("v2" below, matching the README): its `Config`
  has `containerAccessType`, `handleUpload` writes a SAS-signed URL when
  the configured access type is `'private'` (expiry `new Date(3000, 0)`),
  and the module exposes only `upload`, `uploadStream` and `delete`.

Azure SDK calls (`BlobClient.url`, `generateSasUrl`, `createIfNotExists`,
`deleteIfExists`, `exists`, `getProperties`, `uploadStream`) are modelled
by a small pure storage-state model defined below; URLs are strings,
`s.replace(pat, rep)` of JavaScript (first occurrence only) is modelled
explicitly, and times (`Date`) are naturals counting milliseconds.
-/

namespace AzureProvider

/-- The container access types of the configuration surface:
`'private' | 'blob' | 'container'`. `priv` stands for the string
`'private'` (a reserved word in Lean). -/
inductive AccessType where
  | priv
  | blob
  | container
deriving DecidableEq, Repr

/-- Raw configuration as handed to `init` before normalization. In the
TypeScript source every field may be `undefined` at runtime; `Option`
models that. -/
structure RawConfig where
  account : Option String
  accountKey : Option String
  serviceBaseURL : Option String
  containerName : Option String
  defaultPath : Option String
  cdnBaseURL : Option String
  createContainerIfNotExists : Option Bool
  containerAccessType : Option AccessType
deriving DecidableEq, Repr

/-- Normalized configuration, the record rebuilt inside `init`. String
fields that were absent are empty strings (`trimParam` of `undefined`);
`containerAccessType` stays optional because `init` copies it verbatim
(v2) or drops it (v1). -/
structure Config where
  account : String
  accountKey : String
  serviceBaseURL : String
  containerName : String
  defaultPath : String
  cdnBaseURL : String
  createContainerIfNotExists : Bool
  containerAccessType : Option AccessType
deriving DecidableEq, Repr

/-- The file descriptor handed over by the host (`StrapiFile`). The
content stream is not modelled; only the fields the provider reads or
writes are kept. -/
structure StrapiFile where
  hash : String
  url : String
  ext : String
  mime : String
  path : String
deriving DecidableEq, Repr

/-- Model of JavaScript `String.prototype.trim`: drop whitespace from
both ends of the string. -/
def jsTrim (s : String) : String :=
  String.mk (((s.data.dropWhile Char.isWhitespace).reverse.dropWhile Char.isWhitespace).reverse)

/-- Source `trimParam`: `typeof input === 'string' ? input.trim() : ''`. -/
def trimParam : Option String → String
  | some s => jsTrim s
  | none => ""

/-- Source `getFileName(path, file)` = `` `${trimParam(path)}/${file.hash}${file.ext}` ``. -/
def getFileName (path : String) (file : StrapiFile) : String :=
  trimParam (some path) ++ "/" ++ file.hash ++ file.ext

/-- The default service base URL `` `https://${account}.blob.core.windows.net` ``. -/
def defaultServiceBaseURL (account : String) : String :=
  "https://" ++ account ++ ".blob.core.windows.net"

/-- Normalization performed by `init` of the v2 module
(`src/unnamed/part_001`): trim the string fields, default
`createContainerIfNotExists` to `true` when `undefined`, copy
`containerAccessType` verbatim, and default `serviceBaseURL` to the
conventional per-account endpoint when the trimmed value is falsy
(empty). -/
def init (c : RawConfig) : Config :=
  { containerName := trimParam c.containerName
    account := trimParam c.account
    accountKey := trimParam c.accountKey
    createContainerIfNotExists := c.createContainerIfNotExists.getD true
    defaultPath := trimParam c.defaultPath
    cdnBaseURL := trimParam c.cdnBaseURL
    containerAccessType := c.containerAccessType
    serviceBaseURL :=
      if trimParam c.serviceBaseURL = "" then defaultServiceBaseURL (trimParam c.account)
      else trimParam c.serviceBaseURL }

/-- Normalization performed by `init` of the v1 module
(`src/src/index.ts`): identical to v2 except that its `Config` type has
no `containerAccessType` field at all, so the normalized configuration
carries none. -/
def initV1 (c : RawConfig) : Config :=
  { init c with containerAccessType := none }

/-! ### URL model -/

/-- JavaScript `s.replace(pat, rep)` with a string pattern replaces only
the FIRST occurrence of `pat`. Helper on character lists. -/
def replaceFirstAux (rep : List Char) : List Char → List Char → List Char
  | _, [] => []
  | pat, c :: rest =>
    if pat.isPrefixOf (c :: rest) then rep ++ (c :: rest).drop pat.length
    else c :: replaceFirstAux rep pat rest

/-- JavaScript `s.replace(pat, rep)` (first occurrence only; `s`
unchanged when `pat` does not occur). -/
def jsReplaceFirst (s pat rep : String) : String :=
  String.mk (replaceFirstAux rep.data pat.data s.data)

/-- SAS permission set; upload paths use `BlobSASPermissions.from({ read: true })`. -/
structure SasPerms where
  read : Bool
deriving DecidableEq, Repr

/-- Model of the SAS token query string produced by
`BlobClient.generateSasUrl({ permissions, expiresOn })`: it records the
granted permissions and the expiry timestamp (ms since the epoch). -/
def sasQuery (perms : SasPerms) (expiresOn : Nat) : String :=
  "?sp=" ++ (if perms.read then "r" else "") ++ "&se=" ++ toString expiresOn

/-- Model of `BlobClient.generateSasUrl`: the blob's own URL followed by
the SAS token query. -/
def generateSasUrl (url : String) (perms : SasPerms) (expiresOn : Nat) : String :=
  url ++ sasQuery perms expiresOn

/-- Model of the Azure SDK blob client URL for a blob name inside the
configured container: `serviceBaseURL/containerName/blobName`
(URL-encoding of the name is not modelled). -/
def blobClientUrl (cfg : Config) (blobName : String) : String :=
  cfg.serviceBaseURL ++ "/" ++ cfg.containerName ++ "/" ++ blobName

/-- Expiry `new Date(3000, 0)` of the v2 `handleUpload`: midnight, January 1 of
the year 3000, as milliseconds since the epoch (the local-time offset of
the JavaScript constructor is not modelled). -/
def expiresOn3000 : Nat := 32503680000000

/-- One day in milliseconds; `expiresOn.setDate(expiresOn.getDate() + 1)`
of `getSignedUrl` adds one calendar day, modelled as 86400000 ms. -/
def msPerDay : Nat := 86400000

/-- A present-day reference timestamp (October 11, 2026, as ms since the
epoch), used to state that the year-3000 expiry lies in the future. -/
def epochMsOct2026 : Nat := 1791676800000

/-! ### Storage-state model -/

/-- State of one container: the public-access level reported by
`getProperties().blobPublicAccess` (`none` when the container is
private) and the set of blob keys present, as a duplicate-free list. -/
structure ContainerProps where
  blobPublicAccess : Option AccessType
  blobs : List String
deriving DecidableEq, Repr

/-- The storage account: a map from container names to container state
(`none` when the container does not exist). -/
structure StorageState where
  containers : String → Option ContainerProps

/-- Look a container up (`getContainerClient` + `exists`/`getProperties`). -/
def findContainer (st : StorageState) (name : String) : Option ContainerProps :=
  st.containers name

/-- Model of `ContainerClient.createIfNotExists({ access })`: create the
container with the given public-access level when absent, leave the
state unchanged when present. `access = none` creates a private
container (no public access reported afterwards). -/
def createIfNotExists (st : StorageState) (name : String) (access : Option AccessType) :
    StorageState :=
  match findContainer st name with
  | some _ => st
  | none => ⟨fun n => if n = name then some ⟨access, []⟩ else st.containers n⟩

/-- Write a blob key into a container (the remote effect of
`BlockBlobClient.uploadStream`); re-upload overwrites in place. -/
def putBlob (st : StorageState) (name key : String) : StorageState :=
  ⟨fun n =>
    if n = name then
      (st.containers n).map fun c => ⟨c.blobPublicAccess, key :: c.blobs.filter (· ≠ key)⟩
    else st.containers n⟩

/-- Model of `BlobClient.deleteIfExists`: remove the key when present,
do nothing (and raise no error) when absent. -/
def deleteIfExists (st : StorageState) (name key : String) : StorageState :=
  ⟨fun n =>
    if n = name then
      (st.containers n).map fun c => ⟨c.blobPublicAccess, c.blobs.filter (· ≠ key)⟩
    else st.containers n⟩

/-- Whether a blob key is present in a container. -/
def blobExists (st : StorageState) (name key : String) : Bool :=
  match findContainer st name with
  | some c => key ∈ c.blobs
  | none => false

/-! ### Provider operations -/

/-- The CDN rewrite applied to the URL before it is written to the
descriptor: `config.cdnBaseURL ? url.replace(config.serviceBaseURL,
config.cdnBaseURL) : url` (an empty string is falsy in JavaScript). -/
def cdnRewrite (cfg : Config) (url : String) : String :=
  if cfg.cdnBaseURL = "" then url else jsReplaceFirst url cfg.serviceBaseURL cfg.cdnBaseURL

/-- URL computed by the v2 `handleUpload` and assigned to `file.url`:
a SAS URL with read permission and expiry `new Date(3000, 0)` when
`config.containerAccessType === 'private'`, the plain blob client URL
otherwise; then the CDN rewrite. -/
def uploadUrl (cfg : Config) (file : StrapiFile) : String :=
  cdnRewrite cfg
    (if cfg.containerAccessType = some AccessType.priv then
      generateSasUrl (blobClientUrl cfg (getFileName cfg.defaultPath file))
        { read := true } expiresOn3000
    else blobClientUrl cfg (getFileName cfg.defaultPath file))

/-- URL computed by the v1 `handleUpload` (`src/src/index.ts`): always
the plain blob client URL with the CDN rewrite, never signed. -/
def uploadUrlV1 (cfg : Config) (file : StrapiFile) : String :=
  cdnRewrite cfg (blobClientUrl cfg (getFileName cfg.defaultPath file))

/-- The v2 `handleUpload`: the descriptor's `url` field is assigned
first, then `await client.uploadStream(...)` runs; a failing remote
write is driven by the `uploadOk` oracle and its rejection propagates to
the caller, but the descriptor has already been mutated. Returns the
mutated descriptor alongside the outcome of the remote write. -/
def handleUpload (cfg : Config) (st : StorageState) (file : StrapiFile) (uploadOk : Bool) :
    StrapiFile × Except String StorageState :=
  let filename := getFileName cfg.defaultPath file
  let file' := { file with url := uploadUrl cfg file }
  if uploadOk then (file', Except.ok (putBlob st cfg.containerName filename))
  else (file', Except.error "uploadStream rejected")

/-- The v1 `handleUpload`: same control flow, but the assigned URL is
never signed (`uploadUrlV1`). -/
def handleUploadV1 (cfg : Config) (st : StorageState) (file : StrapiFile) (uploadOk : Bool) :
    StrapiFile × Except String StorageState :=
  let filename := getFileName cfg.defaultPath file
  let file' := { file with url := uploadUrlV1 cfg file }
  if uploadOk then (file', Except.ok (putBlob st cfg.containerName filename))
  else (file', Except.error "uploadStream rejected")

/-- The module's `upload` entry point delegates to `handleUpload`. -/
def upload (cfg : Config) (st : StorageState) (file : StrapiFile) (uploadOk : Bool) :
    StrapiFile × Except String StorageState :=
  handleUpload cfg st file uploadOk

/-- The module's `uploadStream` entry point delegates to the same
`handleUpload`. -/
def uploadStream (cfg : Config) (st : StorageState) (file : StrapiFile) (uploadOk : Bool) :
    StrapiFile × Except String StorageState :=
  handleUpload cfg st file uploadOk

/-- Source `handleDelete` (identical in both variants): `deleteIfExists` on the
blob at the derived key, then `file.url = client.url` — the plain blob
URL, with neither SAS signing nor the CDN rewrite. `deleteIfExists`
never raises on an absent key, so the outcome is always `ok`. -/
def handleDelete (cfg : Config) (st : StorageState) (file : StrapiFile) :
    StrapiFile × Except String StorageState :=
  let filename := getFileName cfg.defaultPath file
  let st' := deleteIfExists st cfg.containerName filename
  ({ file with url := blobClientUrl cfg filename }, Except.ok st')

/-- Result record of `getSignedUrl`: `{ url }`. -/
structure UrlResult where
  url : String
deriving DecidableEq, Repr

/-- Source `getSignedUrl` of the v1 module: a SAS URL for the blob at the
derived key with read permission and expiry one day after `now`
(`new Date()` followed by `setDate(getDate() + 1)`). -/
def getSignedUrl (cfg : Config) (file : StrapiFile) (now : Nat) : UrlResult :=
  ⟨generateSasUrl (blobClientUrl cfg (getFileName cfg.defaultPath file))
    { read := true } (now + msPerDay)⟩

/-- The error thrown by `isPrivate` when the container is missing and
auto-creation is disabled. -/
def missingContainerMsg (cfg : Config) : String :=
  "upload provider error : container " ++ cfg.containerName ++
    " does not exist. Either use createContainerIfNotExists or create the container manually in " ++
    cfg.account ++ " storage account."

/-- Outcome of `isPrivate`: a boolean, a thrown error, or fuel
exhaustion (the source recursion is unbounded; `outOfFuel` marks runs
the chosen fuel cannot finish). -/
inductive IsPrivResult where
  | ok (b : Bool)
  | err (msg : String)
  | outOfFuel
deriving DecidableEq, Repr

/-- Source `isPrivate` of the v1 module: if the container exists, report
whether `getProperties().blobPublicAccess` is undefined; otherwise, when
`createContainerIfNotExists` holds, `createIfNotExists()` (no access
option, hence a private container) and recurse; otherwise throw. The
source recursion carries no bound; `fuel` caps it in the model. -/
def isPrivate (cfg : Config) : Nat → StorageState → IsPrivResult × StorageState
  | 0, st => (IsPrivResult.outOfFuel, st)
  | fuel + 1, st =>
    match findContainer st cfg.containerName with
    | some props => (IsPrivResult.ok (props.blobPublicAccess = none), st)
    | none =>
      if cfg.createContainerIfNotExists then
        isPrivate cfg fuel (createIfNotExists st cfg.containerName none)
      else
        (IsPrivResult.err (missingContainerMsg cfg), st)

/-! ### Helper lemmas -/

theorem string_append_assoc (a b c : String) : a ++ b ++ c = a ++ (b ++ c) := by
  obtain ⟨ad⟩ := a
  obtain ⟨bd⟩ := b
  obtain ⟨cd⟩ := c
  show String.mk (ad ++ bd ++ cd) = String.mk (ad ++ (bd ++ cd))
  rw [List.append_assoc]

theorem isPrefixOf_self_append (l t : List Char) : l.isPrefixOf (l ++ t) = true := by
  induction l with
  | nil => simp [List.isPrefixOf]
  | cons c cs ih => simp [List.isPrefixOf, ih]

theorem replaceFirstAux_append (rep pat t : List Char) (h : pat ≠ []) :
    replaceFirstAux rep pat (pat ++ t) = rep ++ t := by
  cases pat with
  | nil => exact absurd rfl h
  | cons c cs =>
    show replaceFirstAux rep (c :: cs) (c :: (cs ++ t)) = rep ++ t
    rw [replaceFirstAux]
    rw [show (c :: (cs ++ t)) = (c :: cs) ++ t from rfl, isPrefixOf_self_append]
    simp

theorem jsReplaceFirst_append (p t r : String) (h : p ≠ "") :
    jsReplaceFirst (p ++ t) p r = r ++ t := by
  obtain ⟨pd⟩ := p
  obtain ⟨td⟩ := t
  obtain ⟨rd⟩ := r
  have hpd : pd ≠ [] := by
    intro hnil
    exact h (by rw [hnil])
  show String.mk (replaceFirstAux rd pd (pd ++ td)) = String.mk (rd ++ td)
  rw [replaceFirstAux_append rd pd td hpd]

theorem cdnRewrite_append (cfg : Config) (t : String) (h : cfg.serviceBaseURL ≠ "") :
    cdnRewrite cfg (cfg.serviceBaseURL ++ t) =
      (if cfg.cdnBaseURL = "" then cfg.serviceBaseURL else cfg.cdnBaseURL) ++ t := by
  unfold cdnRewrite
  by_cases hc : cfg.cdnBaseURL = "" <;>
    simp [hc, jsReplaceFirst_append cfg.serviceBaseURL t cfg.cdnBaseURL h]

theorem blobClientUrl_eq (cfg : Config) (n : String) :
    blobClientUrl cfg n = cfg.serviceBaseURL ++ ("/" ++ cfg.containerName ++ "/" ++ n) := by
  simp [blobClientUrl, string_append_assoc]

theorem string_append_ne_left (s t : String) (h : t ≠ "") : s ++ t ≠ s := by
  intro he
  apply h
  have hl := congrArg String.length he
  rw [String.length_append] at hl
  have h0 : t.length = 0 := by omega
  obtain ⟨td⟩ := t
  cases td with
  | nil => rfl
  | cons c cs => simp [String.length] at h0

theorem string_append_empty (s : String) : s ++ "" = s := by
  obtain ⟨sd⟩ := s
  show String.mk (sd ++ []) = String.mk sd
  rw [List.append_nil]

theorem filter_ne_idem (l : List String) (k : String) :
    (l.filter (· ≠ k)).filter (· ≠ k) = l.filter (· ≠ k) := by
  induction l with
  | nil => rfl
  | cons a rest ih =>
    by_cases ha : a = k
    · simp [ha, ih]
    · simp [List.filter_cons, ha, ih]

theorem blobExists_deleteIfExists (st : StorageState) (name key : String) :
    blobExists (deleteIfExists st name key) name key = false := by
  unfold blobExists findContainer deleteIfExists
  simp only [if_pos rfl]
  cases st.containers name with
  | none => rfl
  | some c => simp [List.mem_filter]

theorem deleteIfExists_idem (st : StorageState) (name key : String) :
    deleteIfExists (deleteIfExists st name key) name key = deleteIfExists st name key := by
  unfold deleteIfExists
  congr 1
  funext n
  by_cases hn : n = name
  · subst hn
    simp only [if_pos rfl]
    cases st.containers n with
    | none => rfl
    | some c => simp [filter_ne_idem]
  · simp [hn]

/-! ### Concrete fixtures used by witnesses and counterexamples -/

/-- A raw configuration with every field absent. -/
def rawEmpty : RawConfig := ⟨none, none, none, none, none, none, none, none⟩

/-- A normalized configuration for a private container, no CDN. -/
def cfg0 : Config :=
  { account := "acct"
    accountKey := "key"
    serviceBaseURL := "https://acct.blob.core.windows.net"
    containerName := "media"
    defaultPath := "assets"
    cdnBaseURL := ""
    createContainerIfNotExists := true
    containerAccessType := some AccessType.priv }

/-- Variant of `cfg0` with a CDN base URL. -/
def cfgCdn : Config := { cfg0 with cdnBaseURL := "https://cdn.example.com" }

/-- Variant of `cfg0` with auto-creation off and no access type. -/
def cfgNoCreate : Config :=
  { cfg0 with createContainerIfNotExists := false, containerAccessType := none }

/-- A concrete file descriptor. -/
def file0 : StrapiFile := ⟨"abc", "", ".png", "image/png", ""⟩

/-- The empty storage account. -/
def stEmpty : StorageState := ⟨fun _ => none⟩

/-- A storage account holding one private container named `media`. -/
def stPriv : StorageState :=
  ⟨fun n => if n = "media" then some ⟨none, []⟩ else none⟩

/-- A storage account holding one blob-public container named `media`. -/
def stBlob : StorageState :=
  ⟨fun n => if n = "media" then some ⟨some AccessType.blob, []⟩ else none⟩

/-! ### Claims -/

/-- C7: `getFileName` is a pure function of the path, the hash and the
extension: any two descriptors agreeing on hash and extension give the
same key, of the form `<trimmed path>/<hash><extension>`; in particular
`getFileName "assets" {hash := "abc", ext := ".png"}` is
`"assets/abc.png"`, and leading/trailing whitespace in the configured
path is trimmed. -/
theorem c7_getFileName_pure :
    (∀ (p hsh e : String) (f g : StrapiFile), f.hash = hsh → f.ext = e → g.hash = hsh →
      g.ext = e →
      getFileName p f = getFileName p g ∧ getFileName p f = jsTrim p ++ "/" ++ hsh ++ e) ∧
    getFileName "assets" { hash := "abc", url := "", ext := ".png", mime := "", path := "" } =
      "assets/abc.png" ∧
    getFileName "  assets " { hash := "abc", url := "", ext := ".png", mime := "", path := "" } =
      "assets/abc.png" := by
  refine ⟨?_, by decide, by decide⟩
  intro p hsh e f g hf1 hf2 hg1 hg2
  subst hf1
  subst hf2
  refine ⟨?_, rfl⟩
  unfold getFileName
  rw [hg1, hg2]

/-- C7 witness: the purity part applied to two concrete descriptors that
differ everywhere except hash and extension. -/
theorem c7_getFileName_pure_witness :
    getFileName "assets" ⟨"abc", "", ".png", "image/png", ""⟩ =
      getFileName "assets" ⟨"abc", "http://old", ".png", "text/plain", "p"⟩ :=
  (c7_getFileName_pure.1 "assets" "abc" ".png" _ _ rfl rfl rfl rfl).1

/-- C8 counterexample: normalization does NOT default the container
access level to `'private'` when unspecified — `init` copies the field
verbatim, so an absent access level stays absent. -/
theorem c8_no_private_default_counterexample :
    (init ⟨none, none, none, none, none, none, none, none⟩).containerAccessType ≠
      some AccessType.priv := by
  decide

/-- C8 (amended): normalization trims the string fields, defaults
`createContainerIfNotExists` to `true` when unspecified, defaults
`serviceBaseURL` to `https://{account}.blob.core.windows.net` when
unspecified, never raises (absent fields become empty strings), and
passes the container access level through unchanged — an unspecified
access level stays unspecified rather than becoming `'private'` (and the
v1 `init` drops the field entirely). -/
theorem c8_init_normalization (c : RawConfig) :
    (init c).account = trimParam c.account ∧
    (init c).accountKey = trimParam c.accountKey ∧
    (init c).containerName = trimParam c.containerName ∧
    (init c).defaultPath = trimParam c.defaultPath ∧
    (init c).cdnBaseURL = trimParam c.cdnBaseURL ∧
    (∀ s, c.account = some s → (init c).account = jsTrim s) ∧
    (c.createContainerIfNotExists = none → (init c).createContainerIfNotExists = true) ∧
    (∀ b, c.createContainerIfNotExists = some b → (init c).createContainerIfNotExists = b) ∧
    (c.serviceBaseURL = none →
      (init c).serviceBaseURL = defaultServiceBaseURL (trimParam c.account)) ∧
    (init c).containerAccessType = c.containerAccessType ∧
    (initV1 c).containerAccessType = none ∧
    (c.account = none → (init c).account = "") := by
  refine ⟨rfl, rfl, rfl, rfl, rfl, ?_, ?_, ?_, ?_, rfl, rfl, ?_⟩
  · intro s hs
    simp [init, trimParam, hs]
  · intro h
    simp [init, h]
  · intro b hb
    simp [init, hb]
  · intro h
    simp [init, trimParam, h]
  · intro h
    simp [init, trimParam, h]

/-- C8 witness: the defaulting clauses of the amended claim at the
all-absent raw configuration. -/
theorem c8_init_normalization_witness :
    (init rawEmpty).createContainerIfNotExists = true ∧
    (init rawEmpty).serviceBaseURL = defaultServiceBaseURL (trimParam rawEmpty.account) ∧
    (init rawEmpty).account = "" :=
  ⟨(c8_init_normalization rawEmpty).2.2.2.2.2.2.1 rfl,
   (c8_init_normalization rawEmpty).2.2.2.2.2.2.2.2.1 rfl,
   (c8_init_normalization rawEmpty).2.2.2.2.2.2.2.2.2.2.2 rfl⟩

/-- C9: `getSignedUrl` returns `{ url }` where `url` is the SAS URL of
the blob at the derived object key, granting read permission, with an
expiry exactly one day (86400000 ms) after the current time. -/
theorem c9_getSignedUrl_one_day (cfg : Config) (file : StrapiFile) (now : Nat) :
    (getSignedUrl cfg file now).url =
      blobClientUrl cfg (getFileName cfg.defaultPath file) ++
        sasQuery { read := true } (now + msPerDay) ∧
    now + msPerDay - now = msPerDay ∧
    now < now + msPerDay := by
  refine ⟨rfl, by omega, ?_⟩
  have h : 0 < msPerDay := by decide
  omega

/-- C10: in `handleUpload` (both variants) the descriptor's `url` field
is assigned before the remote write; when the write fails and the error
propagates, the descriptor has already been overwritten with the new
URL, and the assigned URL does not depend on the write's outcome. -/
theorem c10_url_assigned_before_write (cfg : Config) (st : StorageState) (file : StrapiFile) :
    (handleUpload cfg st file false).1.url = uploadUrl cfg file ∧
    (handleUpload cfg st file false).2 = Except.error "uploadStream rejected" ∧
    (∀ ok_ : Bool, (handleUpload cfg st file ok_).1.url = uploadUrl cfg file) ∧
    (handleUploadV1 cfg st file false).1.url = uploadUrlV1 cfg file ∧
    (handleUploadV1 cfg st file false).2 = Except.error "uploadStream rejected" := by
  refine ⟨rfl, rfl, ?_, rfl, rfl⟩
  intro ok_
  cases ok_ <;> rfl

/-- C1: the URL written to the descriptor by `upload`/`uploadStream`
(both delegate to `handleUpload`) is a signed URL — the unsigned written
URL followed by a SAS query carrying read permission and the year-3000
(future) expiry, hence distinct from the unsigned URL — exactly when the
configured `containerAccessType` is `'private'`; for any other access
type (`'container'`, `'blob'`, or unspecified) the written URL is the
object's plain unsigned URL. -/
theorem c1_upload_url_signed_iff_private (cfg : Config) (file : StrapiFile)
    (hsvc : cfg.serviceBaseURL ≠ "") :
    (cfg.containerAccessType = some AccessType.priv →
      uploadUrl cfg file = uploadUrlV1 cfg file ++ sasQuery { read := true } expiresOn3000 ∧
      uploadUrl cfg file ≠ uploadUrlV1 cfg file) ∧
    (cfg.containerAccessType ≠ some AccessType.priv →
      uploadUrl cfg file = uploadUrlV1 cfg file) ∧
    upload = uploadStream ∧
    epochMsOct2026 < expiresOn3000 := by
  have hkey := blobClientUrl_eq cfg (getFileName cfg.defaultPath file)
  refine ⟨?_, ?_, rfl, by decide⟩
  · intro hp
    have he : uploadUrl cfg file =
        uploadUrlV1 cfg file ++ sasQuery { read := true } expiresOn3000 := by
      unfold uploadUrl uploadUrlV1 generateSasUrl
      rw [hp, if_pos rfl, hkey, string_append_assoc cfg.serviceBaseURL _ _,
        cdnRewrite_append cfg _ hsvc, cdnRewrite_append cfg _ hsvc]
      exact (string_append_assoc _ _ _).symm
    refine ⟨he, ?_⟩
    rw [he]
    exact string_append_ne_left _ _ (by decide)
  · intro hnp
    unfold uploadUrl uploadUrlV1
    rw [if_neg hnp]

/-- C1 witness: the theorem at a private configuration and at a
non-private one. -/
theorem c1_upload_url_signed_iff_private_witness :
    uploadUrl cfg0 file0 = uploadUrlV1 cfg0 file0 ++ sasQuery { read := true } expiresOn3000 ∧
    uploadUrl cfgNoCreate file0 = uploadUrlV1 cfgNoCreate file0 :=
  ⟨((c1_upload_url_signed_iff_private cfg0 file0 (by decide)).1 rfl).1,
   (c1_upload_url_signed_iff_private cfgNoCreate file0 (by decide)).2.1 (by decide)⟩

/-- C6: when a CDN base URL is configured (non-empty), the host segment
of the URL written by upload equals the CDN base URL in place of the
storage service host, for every access type — signed private URLs and
plain URLs alike (v2), and likewise for the v1 upload URL. -/
theorem c6_cdn_host_rewrite (cfg : Config) (file : StrapiFile)
    (hsvc : cfg.serviceBaseURL ≠ "") (hcdn : cfg.cdnBaseURL ≠ "") :
    uploadUrl cfg file =
      cfg.cdnBaseURL ++
        ("/" ++ cfg.containerName ++ "/" ++ getFileName cfg.defaultPath file ++
          (if cfg.containerAccessType = some AccessType.priv then
            sasQuery { read := true } expiresOn3000
          else "")) ∧
    uploadUrlV1 cfg file =
      cfg.cdnBaseURL ++ ("/" ++ cfg.containerName ++ "/" ++ getFileName cfg.defaultPath file) := by
  have hkey := blobClientUrl_eq cfg (getFileName cfg.defaultPath file)
  have hv1 : uploadUrlV1 cfg file =
      cfg.cdnBaseURL ++ ("/" ++ cfg.containerName ++ "/" ++ getFileName cfg.defaultPath file) := by
    unfold uploadUrlV1
    rw [hkey, cdnRewrite_append cfg _ hsvc, if_neg hcdn]
  refine ⟨?_, hv1⟩
  by_cases hp : cfg.containerAccessType = some AccessType.priv
  · rw [if_pos hp]
    unfold uploadUrl generateSasUrl
    rw [hp, if_pos rfl, hkey, string_append_assoc cfg.serviceBaseURL _ _,
      cdnRewrite_append cfg _ hsvc, if_neg hcdn]
  · rw [if_neg hp, string_append_empty]
    unfold uploadUrl
    rw [if_neg hp, hkey, cdnRewrite_append cfg _ hsvc, if_neg hcdn]

/-- C6 witness: the theorem at a CDN configuration, private and
non-private. -/
theorem c6_cdn_host_rewrite_witness :
    uploadUrl cfgCdn file0 =
      "https://cdn.example.com" ++
        ("/" ++ cfgCdn.containerName ++ "/" ++ getFileName cfgCdn.defaultPath file0 ++
          (if cfgCdn.containerAccessType = some AccessType.priv then
            sasQuery { read := true } expiresOn3000
          else "")) :=
  (c6_cdn_host_rewrite cfgCdn file0 (by decide) (by decide)).1

/-- C2: when the container exists, `isPrivate` returns the boolean
`blobPublicAccess = undefined` of the container's properties: `true`
exactly when the provider reports no public-access level, `false` when
the level is `'blob'` or `'container'`. -/
theorem c2_isPrivate_existing (cfg : Config) (st : StorageState) (props : ContainerProps)
    (fuel : Nat) (h : findContainer st cfg.containerName = some props) :
    isPrivate cfg (fuel + 1) st = (IsPrivResult.ok (props.blobPublicAccess = none), st) ∧
    (props.blobPublicAccess = none → isPrivate cfg (fuel + 1) st = (IsPrivResult.ok true, st)) ∧
    (∀ a, props.blobPublicAccess = some a →
      isPrivate cfg (fuel + 1) st = (IsPrivResult.ok false, st)) := by
  refine ⟨?_, ?_, ?_⟩
  · simp [isPrivate, h]
  · intro hp
    simp [isPrivate, h, hp]
  · intro a ha
    simp [isPrivate, h, ha]

/-- C2 witness: a private container yields `true`, a blob-public
container yields `false`. -/
theorem c2_isPrivate_existing_witness :
    isPrivate cfg0 1 stPriv = (IsPrivResult.ok true, stPriv) ∧
    isPrivate cfg0 1 stBlob = (IsPrivResult.ok false, stBlob) :=
  ⟨(c2_isPrivate_existing cfg0 stPriv ⟨none, []⟩ 0 (by decide)).2.1 rfl,
   (c2_isPrivate_existing cfg0 stBlob ⟨some AccessType.blob, []⟩ 0 (by decide)).2.2
     AccessType.blob rfl⟩

/-- C3: a missing container with auto-creation disabled makes
`isPrivate` throw an error whose message names both the configured
container and the configured account. -/
theorem c3_missing_container_error (cfg : Config) (st : StorageState) (fuel : Nat)
    (hmiss : findContainer st cfg.containerName = none)
    (hauto : cfg.createContainerIfNotExists = false) :
    isPrivate cfg (fuel + 1) st = (IsPrivResult.err (missingContainerMsg cfg), st) ∧
    (∃ a b c_, missingContainerMsg cfg = a ++ cfg.containerName ++ b ++ cfg.account ++ c_) := by
  refine ⟨by simp [isPrivate, hmiss, hauto], ?_⟩
  exact ⟨"upload provider error : container ",
    " does not exist. Either use createContainerIfNotExists or create the container manually in ",
    " storage account.", rfl⟩

/-- C3 witness: the theorem at a concrete no-auto-create configuration
over the empty storage account. -/
theorem c3_missing_container_error_witness :
    isPrivate cfgNoCreate 1 stEmpty =
      (IsPrivResult.err (missingContainerMsg cfgNoCreate), stEmpty) :=
  (c3_missing_container_error cfgNoCreate stEmpty 0 rfl rfl).1

/-- C4: with auto-creation enabled, `isPrivate` on a missing container
creates the container — with no public-access level, i.e. private, the
only access the v1 module (the one defining `isPrivate`) ever passes to
creation, its configuration carrying no access-type field (default
`'private'`) — and returns `true`, consistent with that access type,
terminating within fuel 2, i.e. one retry of the query. -/
theorem c4_isPrivate_autocreate (raw : RawConfig) (st : StorageState)
    (hauto : (initV1 raw).createContainerIfNotExists = true)
    (hmiss : findContainer st (initV1 raw).containerName = none) :
    isPrivate (initV1 raw) 2 st =
      (IsPrivResult.ok true, createIfNotExists st (initV1 raw).containerName none) ∧
    findContainer (createIfNotExists st (initV1 raw).containerName none)
      (initV1 raw).containerName = some ⟨none, []⟩ := by
  have hcr : findContainer (createIfNotExists st (initV1 raw).containerName none)
      (initV1 raw).containerName = some ⟨none, []⟩ := by
    unfold createIfNotExists
    rw [hmiss]
    unfold findContainer
    simp
  refine ⟨?_, hcr⟩
  show isPrivate (initV1 raw) (0 + 1 + 1) st = _
  simp [isPrivate, hmiss, hauto, hcr]

/-- C4 witness: the theorem over the empty storage account for a raw
configuration naming the container `media`. -/
theorem c4_isPrivate_autocreate_witness :
    isPrivate (initV1 { rawEmpty with containerName := some "media" }) 2 stEmpty =
      (IsPrivResult.ok true,
        createIfNotExists stEmpty
          (initV1 { rawEmpty with containerName := some "media" }).containerName none) :=
  (c4_isPrivate_autocreate { rawEmpty with containerName := some "media" } stEmpty
    (by decide) rfl).1

/-- C5: `handleDelete` removes the object at the derived key (absent
afterwards), raises no error even when the key was already absent (the
outcome is `ok` for every state, and deletion is idempotent), and sets
the descriptor's URL to the object's plain non-signed URL — no SAS query
and no CDN rewrite — regardless of the configured access type. -/
theorem c5_handleDelete (cfg : Config) (st : StorageState) (file : StrapiFile) :
    handleDelete cfg st file =
      ({ file with url := blobClientUrl cfg (getFileName cfg.defaultPath file) },
        Except.ok (deleteIfExists st cfg.containerName (getFileName cfg.defaultPath file))) ∧
    blobExists (deleteIfExists st cfg.containerName (getFileName cfg.defaultPath file))
      cfg.containerName (getFileName cfg.defaultPath file) = false ∧
    deleteIfExists (deleteIfExists st cfg.containerName (getFileName cfg.defaultPath file))
        cfg.containerName (getFileName cfg.defaultPath file) =
      deleteIfExists st cfg.containerName (getFileName cfg.defaultPath file) ∧
    (∀ a : Option AccessType,
      (handleDelete { cfg with containerAccessType := a } st file).1.url =
        blobClientUrl cfg (getFileName cfg.defaultPath file)) := by
  refine ⟨rfl, blobExists_deleteIfExists _ _ _, deleteIfExists_idem _ _ _, ?_⟩
  intro a
  rfl

end AzureProvider
